import Mathlib

/-!
Verification of the responses2chat protocol translator.

This file gives a shallow embedding, in Lean 4, of the core of the
responses2chat repository (a bidirectional translator between the
"Responses" wire protocol and the "Chat Completions" wire protocol),
together with theorems settling a list of claims about it.

The embedding follows the Go source:
  * `internal/models/models.go`       — the data model,
  * `internal/converter/streaming.go` — `HandleStreamingResponse`,
    `hashToolCallID`, `ConvertRequest`, `ConvertResponse` and helpers,
  * `internal/handler/websearch.go`   — `HandleWithWebSearch` and
    helpers,
  * `internal/search/manager.go`      — `FormatResults`,
  * the MCP search provider          — `MCPProvider.Search`,
    `ensureSession`, `clearSession`.

External effects (HTTP transport, `encoding/json` parsing of opaque
payloads, the SSE scanner) are modelled as explicit oracles passed in as
function arguments; the control flow, state updates and string
manipulation of the repository's own code are translated directly.
Go maps have unspecified iteration order, so every place the source
ranges over a map is parameterised by an `iterOrder` function that is
assumed (where needed) to produce a permutation of the entries.
-/

/-! ## Strings

Go's `strings.HasPrefix` / `strings.TrimPrefix` / `strings.Contains`,
modelled on the character lists underlying Lean strings. -/

/-- Whether `p` is an initial segment of `s` (Go `strings.HasPrefix` on
rune lists). -/
def prefChars : List Char → List Char → Bool
  | [], _ => true
  | _ :: _, [] => false
  | a :: as, b :: bs => a = b && prefChars as bs

/-- Whether `n` occurs as a contiguous segment of the second list
(Go `strings.Contains`). -/
def subChars (n : List Char) : List Char → Bool
  | [] => n.isEmpty
  | c :: cs => prefChars n (c :: cs) || subChars n cs

/-- Go `strings.HasPrefix p s` (argument order: needle first). -/
def strHasPre (p s : String) : Bool := prefChars p.data s.data

/-- Go `strings.TrimPrefix` under the assumption that the prefix is
present: drop `p.length` characters. -/
def strDropPre (p s : String) : String := ⟨s.data.drop p.data.length⟩

/-- Go `strings.Contains s n` — `n` occurs inside `s`. -/
def containsSub (n s : String) : Bool := subChars n.data s.data

/-! ## JSON documents

Opaque structured documents (tool parameter schemas).  Object fields
are kept in insertion order, as the Go source builds them with literal
`map[string]interface{}` values that are only ever compared
structurally here. -/

/-- A JSON value, used for opaque parameter-schema documents. -/
inductive Json where
  | null : Json
  | bool (b : Bool) : Json
  | num (n : Int) : Json
  | str (s : String) : Json
  | arr (xs : List Json) : Json
  | obj (fields : List (String × Json)) : Json

/-- Field lookup on a JSON object; `none` on other variants. -/
def jsonLookup : Json → String → Option Json
  | .obj fields, k =>
    match fields.find? (fun kv => kv.1 = k) with
    | some kv => some kv.2
    | none => none
  | _, _ => none

/-! ## Data model (`internal/models/models.go`) -/

/-- `models.ContentItem` — content within a Responses-API message. -/
structure ContentItem where
  type : String
  text : String
  imageURL : String
  data : String
  deriving DecidableEq, Repr

/-- `models.InputItem` — an item of a Responses-API request `input`. -/
structure InputItem where
  type : String
  id : String
  role : String
  content : List ContentItem
  callID : String
  name : String
  arguments : String
  output : String
  status : String
  deriving DecidableEq, Repr

/-- The nested `function` struct of `models.ToolCall`. -/
structure ToolCallFunction where
  name : String
  arguments : String
  deriving DecidableEq, Repr

/-- `models.ToolCall` — a tool call in a chat message. -/
structure ToolCall where
  id : String
  type : String
  function : ToolCallFunction
  deriving DecidableEq, Repr

/-- `models.ChatContentPart` — part of a multimodal chat message;
`imageURLUrl` is the nested `image_url.url` field. -/
structure ChatContentPart where
  type : String
  text : String
  imageURLUrl : String
  deriving DecidableEq, Repr

/-- The Go field `ChatMessage.Content` has type `interface{}`: it is
either absent (`nil`), a plain string, or a list of content parts. -/
inductive ChatContent where
  | null : ChatContent
  | str (s : String) : ChatContent
  | parts (ps : List ChatContentPart) : ChatContent
  deriving DecidableEq, Repr

/-- `models.ChatMessage` — a Chat-Completions message. -/
structure ChatMessage where
  role : String
  content : ChatContent
  name : String
  toolCalls : List ToolCall
  toolCallID : String
  deriving DecidableEq, Repr

/-- `models.FunctionDef` — a function-tool declaration.  The
`parameters` document is opaque JSON; Go `float64` does not occur in
it in this repository. -/
structure FunctionDef where
  name : String
  description : String
  parameters : Json
  strict : Option Bool

/-- `models.Tool` — a Responses-API tool declaration. -/
structure Tool where
  type : String
  function : FunctionDef

/-- `models.ChatTool` — a Chat-Completions tool declaration. -/
structure ChatTool where
  type : String
  function : FunctionDef

/-- `models.ResponsesRequest`.  The `temperature` pointer is modelled
as an `Option`; its numeric value is only ever copied, never computed
with, so an integer stand-in is adequate. -/
structure ResponsesRequest where
  model : String
  instructions : String
  input : List InputItem
  tools : List Tool
  stream : Bool
  temperature : Option Int
  maxTokens : Int
  previousResponseID : String

/-- `models.ChatCompletionRequest`. -/
structure ChatCompletionRequest where
  model : String
  messages : List ChatMessage
  tools : List ChatTool
  stream : Bool
  temperature : Option Int
  maxTokens : Int

/-- `models.OutputItem` — one unit of Responses-API output. -/
structure OutputItem where
  type : String
  id : String
  role : String
  content : List ContentItem
  callID : String
  name : String
  arguments : String
  status : String
  deriving DecidableEq, Repr

/-- `models.UsageInfo`. -/
structure UsageInfo where
  inputTokens : Int
  outputTokens : Int
  totalTokens : Int
  deriving DecidableEq, Repr

/-- `models.ResponsesResponse`. -/
structure ResponsesResponse where
  id : String
  object : String
  createdAt : Int
  status : String
  model : String
  output : List OutputItem
  usage : UsageInfo
  deriving DecidableEq, Repr

/-- `models.ChatUsage`. -/
structure ChatUsage where
  promptTokens : Int
  completionTokens : Int
  totalTokens : Int
  deriving DecidableEq, Repr

/-- `models.ChatChoice`. -/
structure ChatChoice where
  index : Int
  message : ChatMessage
  finishReason : String
  deriving DecidableEq, Repr

/-- `models.ChatCompletionResponse`. -/
structure ChatCompletionResponse where
  id : String
  object : String
  created : Int
  model : String
  choices : List ChatChoice
  usage : ChatUsage
  deriving DecidableEq, Repr

/-- `models.ChatDelta` — the delta of a streaming chunk. -/
structure ChatDelta where
  role : String
  content : String
  toolCalls : List ToolCall
  deriving DecidableEq, Repr

/-- `models.ChatChunkChoice`. -/
structure ChatChunkChoice where
  index : Int
  delta : ChatDelta
  finishReason : String
  deriving DecidableEq, Repr

/-- `models.ChatCompletionChunk` — one decoded streaming chunk. -/
structure ChatCompletionChunk where
  id : String
  object : String
  created : Int
  model : String
  choices : List ChatChunkChoice
  deriving DecidableEq, Repr

/-- `models.SearchResult` — one search hit. -/
structure SearchResult where
  title : String
  url : String
  content : String
  snippet : String
  deriving DecidableEq, Repr

/-- `models.SearchProviderResult`. -/
structure SearchProviderResult where
  query : String
  results : List SearchResult
  error : String
  deriving DecidableEq, Repr

/-! ## Stream translator (`internal/converter/streaming.go`)

`HandleStreamingResponse` consumes newline-delimited lines from the
upstream body (the `bufio.Scanner` loop) and writes Front-protocol SSE
events.  The embedding takes:
  * `decode`    — an oracle for `json.Unmarshal` of one chunk payload
    (`none` models a parse error, which the source logs and skips);
  * `iterOrder` — the iteration order Go uses when ranging over the
    `toolCalls` map (unspecified by Go; constrained to a permutation
    where a theorem needs it);
  * `lines`     — the lines delivered by the scanner;
  * `readErr`   — a scanner error surfaced after the delivered lines
    (`scanner.Err()` after `Scan` returns false).
Events written to the `http.ResponseWriter` are collected in order, and
log statements relevant to the claims are collected in `logs`. -/

/-- A Front-protocol SSE event, as written by `SSEWriter.WriteEvent`. -/
inductive FrontEvent where
  | created (id status : String) : FrontEvent
  | itemAdded (item : OutputItem) : FrontEvent
  | textDelta (delta : String) (outputIndex : Int) : FrontEvent
  | itemDone (item : OutputItem) : FrontEvent
  | completed (id status : String) : FrontEvent
  deriving DecidableEq, Repr

/-- The Go `int64` wrap-around (two's complement, 64 bits). -/
def wrap64 (z : Int) : Int := (z + 2 ^ 63) % 2 ^ 64 - 2 ^ 63

/-- `hashToolCallID` (streaming.go): `hash = hash*31 + int(c)` over the
runes of the id on Go 64-bit ints, then negated if negative (Go
negation also wraps, which only matters at `minInt64`). -/
def hashToolCallID (id : String) : Int :=
  let hash := id.data.foldl (fun h c => wrap64 (h * 31 + c.toNat)) 0
  if hash < 0 then wrap64 (-hash) else hash

/-- Association-list lookup, modelling `toolCalls[idx]` on the Go map
`map[int]*models.OutputItem`. -/
def lookupAssoc (m : List (Int × OutputItem)) (k : Int) : Option OutputItem :=
  match m.find? (fun kv => kv.1 = k) with
  | some kv => some kv.2
  | none => none

/-- Replace the entry stored under key `k` (mutation through the
`*models.OutputItem` pointer held in the map). -/
def updateAssoc (m : List (Int × OutputItem)) (k : Int) (v : OutputItem) :
    List (Int × OutputItem) :=
  m.map (fun kv => if kv.1 = k then (k, v) else kv)

/-- The per-stream mutable state of `HandleStreamingResponse`:
accumulated text, the tool-call counter, the tool-call map (kept in
insertion order), the message-item-added flag, plus the emitted events,
the log lines, and whether the loop has executed `break`. -/
structure StreamState where
  outputText : String
  currentToolID : Nat
  toolCalls : List (Int × OutputItem)
  messageItemAdded : Bool
  events : List FrontEvent
  logs : List String
  halted : Bool
  deriving Repr

/-- The state before the scan loop: the `response.created` event has
been written, everything else is at its zero value. -/
def initStreamState (responseID : String) : StreamState where
  outputText := ""
  currentToolID := 0
  toolCalls := []
  messageItemAdded := false
  events := [.created ("resp-" ++ responseID) "in_progress"]
  logs := []
  halted := false

/-- The `data:` payload of a line: the source accepts `"data: "` and
`"data:"` markers and skips all other lines. -/
def dataOf (line : String) : Option String :=
  if strHasPre "data: " line then some (strDropPre "data: " line)
  else if strHasPre "data:" line then some (strDropPre "data:" line)
  else none

/-- Whether a line is the completion sentinel `data: [DONE]`. -/
def isDoneLine (line : String) : Bool := dataOf line = some "[DONE]"

/-- The message `OutputItem` emitted when the sentinel is reached,
carrying the full accumulated text. -/
def doneMessageItem (responseID text : String) : OutputItem where
  type := "message"
  id := "msg-" ++ responseID
  role := "assistant"
  content := [{ type := "output_text", text := text, imageURL := "", data := "" }]
  callID := ""
  name := ""
  arguments := ""
  status := "completed"

/-- The message `OutputItem` announced on the first text delta. -/
def inProgressMessageItem (responseID : String) : OutputItem where
  type := "message"
  id := "msg-" ++ responseID
  role := "assistant"
  content := []
  callID := ""
  name := ""
  arguments := ""
  status := "in_progress"

/-- The "Update tool call" step: a present name replaces the item's
name, a present argument fragment is appended to the item's
arguments. -/
def updateToolItem (item : OutputItem) (tc : ToolCall) : OutputItem :=
  let item := if tc.function.name ≠ "" then { item with name := tc.function.name } else item
  if tc.function.arguments ≠ "" then
    { item with arguments := item.arguments ++ tc.function.arguments }
  else item

/-- One iteration of the `for _, tc := range delta.ToolCalls` loop of
`HandleStreamingResponse`.  `idx` is the lookup key (hash of the
provider id when non-empty, else the current counter), but — exactly as
in the source — a freshly allocated item is stored under the key
`currentToolID`, and the `output_item.added` event carries the item as
it is before the name/arguments update. -/
def stepToolCall (responseID : String) (st : StreamState) (tc : ToolCall) :
    StreamState :=
  let idx : Int := if tc.id ≠ "" then hashToolCallID tc.id else (st.currentToolID : Int)
  match lookupAssoc st.toolCalls idx with
  | some item =>
      { st with toolCalls := updateAssoc st.toolCalls idx (updateToolItem item tc) }
  | none =>
      let item : OutputItem :=
        { type := "function_call"
          id := "fc-" ++ responseID ++ "-" ++ toString st.currentToolID
          role := ""
          content := []
          callID := tc.id
          name := ""
          arguments := ""
          status := "in_progress" }
      { st with
        toolCalls := (st.toolCalls ++ [((st.currentToolID : Int), item)])
          |> (fun m => updateAssoc m (st.currentToolID : Int) (updateToolItem item tc))
        currentToolID := st.currentToolID + 1
        events := st.events ++ [.itemAdded item] }

/-- The "Handle text content" branch of the loop body: on a non-empty
delta, the message `added` event is emitted first if it has not been
yet, the delta is appended to the accumulated text, and a text-delta
event is emitted. -/
def stepTextDelta (responseID : String) (st : StreamState) (content : String) :
    StreamState :=
  if content ≠ "" then
    let st :=
      if ¬ st.messageItemAdded then
        { st with
          messageItemAdded := true
          events := st.events ++ [.itemAdded (inProgressMessageItem responseID)] }
      else st
    { st with
      outputText := st.outputText ++ content
      events := st.events ++ [.textDelta content 0] }
  else st

/-- The "Handle finish reason" branch: a debug log line only. -/
def stepFinishLog (st : StreamState) (reason : String) : StreamState :=
  if reason ≠ "" then
    { st with logs := st.logs ++ ["Stream finished: " ++ reason] }
  else st

/-- Processing of one successfully decoded chunk: the text-delta
branch, then the tool-call loop, then the finish-reason debug log. -/
def stepChunk (responseID : String) (st : StreamState) (chunk : ChatCompletionChunk) :
    StreamState :=
  match chunk.choices with
  | [] => st
  | choice :: _ =>
    stepFinishLog
      (choice.delta.toolCalls.foldl (stepToolCall responseID)
        (stepTextDelta responseID st choice.delta.content))
      choice.finishReason

/-- Processing of one scanned line.  After the sentinel has triggered
`break`, remaining lines are not read (`halted` guard). -/
def stepLine (responseID : String) (decode : String → Option ChatCompletionChunk)
    (iterOrder : List (Int × OutputItem) → List (Int × OutputItem))
    (st : StreamState) (line : String) : StreamState :=
  if st.halted then st
  else
    match dataOf line with
    | none => st
    | some data =>
      if data = "[DONE]" then
        { st with
          events := st.events
            ++ (iterOrder st.toolCalls).map (fun kv => .itemDone kv.2)
            ++ [.itemDone (doneMessageItem responseID st.outputText),
                .completed ("resp-" ++ responseID) "completed"]
          halted := true }
      else
        match decode data with
        | none => { st with logs := st.logs ++ ["Failed to parse chunk: " ++ data] }
        | some chunk => stepChunk responseID st chunk

/-- The whole scan loop. -/
def runLines (responseID : String) (decode : String → Option ChatCompletionChunk)
    (iterOrder : List (Int × OutputItem) → List (Int × OutputItem))
    (lines : List String) : StreamState :=
  lines.foldl (stepLine responseID decode iterOrder) (initStreamState responseID)

/-- `converter.StreamResult` — what `HandleStreamingResponse` returns
to its caller for storage. -/
structure StreamResult where
  outputText : String
  toolCalls : List OutputItem
  deriving DecidableEq, Repr

/-- Everything `HandleStreamingResponse` produces: events written to
the SSE writer, the returned `StreamResult`, and the log output.  The
Go function's return type carries no error value. -/
structure StreamOutput where
  events : List FrontEvent
  result : StreamResult
  logs : List String
  deriving Repr

/-- `HandleStreamingResponse`: run the scan loop; if the loop ended
without `break` and the scanner reports an error, the error is logged;
the collected result is returned (the map is ranged over once more to
list the tool-call items). -/
def HandleStreamingResponse (responseID : String)
    (decode : String → Option ChatCompletionChunk)
    (iterOrder : List (Int × OutputItem) → List (Int × OutputItem))
    (lines : List String) (readErr : Option String) : StreamOutput :=
  let st := runLines responseID decode iterOrder lines
  let st :=
    if ¬ st.halted then
      match readErr with
      | some e => { st with logs := st.logs ++ ["Error reading stream: " ++ e] }
      | none => st
    else st
  { events := st.events
    result :=
      { outputText := st.outputText
        toolCalls := (iterOrder st.toolCalls).map (fun kv => kv.2) }
    logs := st.logs }

/-! ## Request translation (`ConvertRequest` and helpers) -/

/-- `converter.WebSearchFunctionTool` — the injected `web_search`
function-tool declaration with its fixed parameter schema. -/
def WebSearchFunctionTool : ChatTool where
  type := "function"
  function :=
    { name := "web_search"
      description := "搜索互联网获取实时信息，如新闻、天气、股价等。当用户询问实时信息时使用此工具。"
      parameters := .obj
        [("type", .str "object"),
         ("properties", .obj
           [("query", .obj
             [("type", .str "string"),
              ("description", .str "搜索关键词或问题")])]),
         ("required", .arr [.str "query"])]
      strict := none }

/-- `convertMessageItem`: role mapping (`developer → user` when the
target lacks the capability), single-text collapse, multimodal
filtering, unknown content types dropped. -/
def convertMessageItem (item : InputItem) (supportsDeveloperRole : Bool) :
    Option ChatMessage :=
  if item.role = "" then none
  else
    let role := if item.role = "developer" ∧ ¬ supportsDeveloperRole then "user" else item.role
    let content : ChatContent :=
      if item.content ≠ [] then
        match item.content with
        | [c] =>
          if c.type = "input_text" then .str c.text
          else convertMultimodal item.content
        | _ => convertMultimodal item.content
      else .null
    some { role := role, content := content, name := "", toolCalls := [], toolCallID := "" }
where
  /-- The multimodal branch: filter/convert parts, then simplify. -/
  convertMultimodal (cs : List ContentItem) : ChatContent :=
    let parts := cs.filterMap (fun c =>
      if c.type = "input_text" then
        some { type := "text", text := c.text, imageURLUrl := "" }
      else if c.type = "input_image" then
        some { type := "image_url", text := ""
               imageURLUrl := if c.imageURL = "" ∧ c.data ≠ "" then c.data else c.imageURL }
      else none)
    match parts with
    | [p] => if p.type = "text" then .str p.text else .parts parts
    | [] => .null
    | _ => .parts parts

/-- `convertFunctionCallItem`: an assistant message bearing exactly one
tool call built from the item. -/
def convertFunctionCallItem (item : InputItem) : ChatMessage where
  role := "assistant"
  content := .null
  name := ""
  toolCalls := [{ id := item.callID, type := "function",
                  function := { name := item.name, arguments := item.arguments } }]
  toolCallID := ""

/-- `convertFunctionCallOutputItem`: a tool-role message carrying the
output text, correlated by the call id. -/
def convertFunctionCallOutputItem (item : InputItem) : ChatMessage where
  role := "tool"
  content := .str item.output
  name := ""
  toolCalls := []
  toolCallID := item.callID

/-- `convertInputItemToMessage`: dispatch on the item type; unknown
types yield no message. -/
def convertInputItemToMessage (item : InputItem) (supportsDeveloperRole : Bool) :
    Option ChatMessage :=
  match item.type with
  | "message" => convertMessageItem item supportsDeveloperRole
  | "function_call" => some (convertFunctionCallItem item)
  | "function_call_output" => some (convertFunctionCallOutputItem item)
  | _ => none

/-- The `for _, tool := range req.Tools` loop of `ConvertRequest`:
returns the converted tool list and the `hasWebSearchTool` flag. -/
def convertTools : List Tool → List ChatTool × Bool
  | [] => ([], false)
  | t :: ts =>
    let rest := convertTools ts
    if t.type = "web_search" then (WebSearchFunctionTool :: rest.1, true)
    else if t.type = "function" ∧ t.function.name ≠ "" then
      ({ type := t.type, function := t.function } :: rest.1, rest.2)
    else rest

/-- The system message built from `instructions`. -/
def instructionsMessage (instructions : String) : ChatMessage where
  role := "system"
  content := .str instructions
  name := ""
  toolCalls := []
  toolCallID := ""

/-- `ConvertRequest`: model mapping, instruction/system-message
insertion, history carry-over, input-item translation, tool filtering,
optional-parameter copy.  Returns the chat request and the
`hasWebSearchTool` flag. -/
def ConvertRequest (req : ResponsesRequest) (modelMapping : List (String × String))
    (history : List ChatMessage) (supportsDeveloperRole : Bool) :
    ChatCompletionRequest × Bool :=
  let model :=
    match modelMapping.find? (fun kv => kv.1 = req.model) with
    | some kv => kv.2
    | none => req.model
  let messages := history
  let messages :=
    if req.instructions ≠ "" then
      if messages.any (fun m => m.role = "system") then messages
      else instructionsMessage req.instructions :: messages
    else messages
  let messages := messages ++ req.input.filterMap
    (fun item => convertInputItemToMessage item supportsDeveloperRole)
  let tools := convertTools req.tools
  ({ model := model
     messages := messages
     tools := tools.1
     stream := req.stream
     temperature := req.temperature
     maxTokens := if req.maxTokens > 0 then req.maxTokens else 0 },
   tools.2)

/-! ## Non-streaming response translation (`ConvertResponse`) -/

/-- The `function_call` output item `ConvertResponse` builds for one
tool call of the first choice. -/
def responseToolItem (requestID : String) (tc : ToolCall) : OutputItem where
  type := "function_call"
  id := "fc-" ++ requestID
  role := ""
  content := []
  callID := tc.id
  name := tc.function.name
  arguments := tc.function.arguments
  status := "completed"

/-- The message output item `ConvertResponse` builds for the first
choice: non-empty string content becomes a single `output_text` part,
anything else leaves the item contentless. -/
def responseMessageItem (requestID : String) (choice : ChatChoice) : OutputItem where
  type := "message"
  id := "msg-" ++ requestID
  role := choice.message.role
  content :=
    match choice.message.content with
    | .str v => if v ≠ "" then [{ type := "output_text", text := v, imageURL := "", data := "" }] else []
    | _ => []
  callID := ""
  name := ""
  arguments := ""
  status := ""

/-- `ConvertResponse`: id with `resp-` prefix, status `completed`, one
`function_call` item per tool call of the first choice placed before
the single message item; usage counters renamed when present. -/
def ConvertResponse (resp : ChatCompletionResponse) (requestID : String) :
    ResponsesResponse :=
  let output : List OutputItem :=
    match resp.choices with
    | [] => []
    | choice :: _ =>
      choice.message.toolCalls.map (responseToolItem requestID)
        ++ [responseMessageItem requestID choice]
  { id := "resp-" ++ requestID
    object := "response"
    createdAt := resp.created
    status := "completed"
    model := resp.model
    output := output
    usage :=
      if resp.usage.totalTokens > 0 then
        { inputTokens := resp.usage.promptTokens
          outputTokens := resp.usage.completionTokens
          totalTokens := resp.usage.totalTokens }
      else { inputTokens := 0, outputTokens := 0, totalTokens := 0 } }

/-! ## Web-search orchestrator (`internal/handler/websearch.go`)

`HandleWithWebSearch` drives the bounded multi-turn loop.  The
upstream transport (`sendToUpstream`) and the two `encoding/json`
uses (`parseQueryFromArguments`' unmarshal and the search manager's
provider call) are oracles:
  * `upstream k`  — result of the `k`-th upstream call (0-based);
  * `parseQuery`  — `json.Unmarshal` into `{query string}`; `none`
    models an unmarshal error (then the source substitutes
    `"unknown"`);
  * `searchFn k q` — result of the `k`-th search-manager call, on
    query `q`. -/

/-- `handler.WebSearchCall` — one recorded search outcome. -/
structure WebSearchCall where
  id : String
  query : String
  status : String
  deriving DecidableEq, Repr

/-- `extractWebSearchCalls`: the tool calls named `web_search`. -/
def extractWebSearchCalls (toolCalls : List ToolCall) : List ToolCall :=
  toolCalls.filter (fun tc => tc.function.name = "web_search")

/-- `search.FormatResults` — tool-message content built from a search
result.  Go truncates `Content` at 500 bytes; character count is used
here, which agrees on ASCII and is irrelevant to every claim. -/
def FormatResults (result : SearchProviderResult) : String :=
  if result.results = [] then "No search results found."
  else
    "Search results for: " ++ result.query ++ "\n\n"
      ++ String.join ((result.results.enum.map (fun ri =>
          toString (ri.1 + 1) ++ ". " ++ ri.2.title ++ "\n"
            ++ (if ri.2.url ≠ "" then "   URL: " ++ ri.2.url ++ "\n" else "")
            ++ (if ri.2.snippet ≠ "" then "   Summary: " ++ ri.2.snippet ++ "\n" else "")
            ++ (if ri.2.content ≠ "" ∧ ri.2.content ≠ ri.2.snippet then
                  "   Content: "
                    ++ (if ri.2.content.data.length > 500 then
                          ⟨ri.2.content.data.take 500⟩ ++ "..."
                        else ri.2.content) ++ "\n"
                else "")
            ++ "\n")))

/-- The status recorded for one search call: `failed` exactly when the
search-manager call returned an error. -/
def searchCallStatus (r : Except String SearchProviderResult) : String :=
  match r with
  | .error _ => "failed"
  | .ok _ => "completed"

/-- The tool-result message appended after one search call. -/
def searchToolMessage (callID content : String) : ChatMessage where
  role := "tool"
  content := .str content
  name := ""
  toolCalls := []
  toolCallID := callID

/-- The `for _, tc := range webSearchToolCalls` loop body of
`HandleWithWebSearch`: parse the query (substituting `"unknown"` on
unmarshal failure), run the search, record the outcome, append the
tool-result message.  Returns the updated search-call counter, message
list and outcome list. -/
def processSearchCalls (parseQuery : String → Option String)
    (searchFn : Nat → String → Except String SearchProviderResult) :
    Nat → List ChatMessage → List WebSearchCall → List ToolCall →
    Nat × List ChatMessage × List WebSearchCall
  | searchCount, messages, calls, [] => (searchCount, messages, calls)
  | searchCount, messages, calls, tc :: rest =>
    let query :=
      match parseQuery tc.function.arguments with
      | some q => q
      | none => "unknown"
    let res := searchFn searchCount query
    let content :=
      match res with
      | .error e => "Search failed: " ++ e
      | .ok r => FormatResults r
    processSearchCalls parseQuery searchFn (searchCount + 1)
      (messages ++ [searchToolMessage tc.id content])
      (calls ++ [{ id := tc.id, query := query, status := searchCallStatus res }])
      rest

/-- What `HandleWithWebSearch` produces: the final response or error,
the ordered outcome list, and the number of upstream calls made. -/
structure OrchestratorOutput where
  result : Except String ChatCompletionResponse
  calls : List WebSearchCall
  upstreamCalls : Nat
  deriving Repr

/-- The assistant message carrying the response's tool calls that is
appended to the running message list. -/
def assistantToolCallMessage (choice : ChatChoice) : ChatMessage where
  role := "assistant"
  content := choice.message.content
  name := ""
  toolCalls := choice.message.toolCalls
  toolCallID := ""

/-- The `for i := 0; i < maxIterations; i++` loop of
`HandleWithWebSearch`, by recursion on the remaining iterations; at
zero the one forced final upstream call is issued and returned
verbatim. -/
def webSearchLoop (upstream : Nat → Except String ChatCompletionResponse)
    (parseQuery : String → Option String)
    (searchFn : Nat → String → Except String SearchProviderResult) :
    Nat → Nat → Nat → List ChatMessage → List WebSearchCall → OrchestratorOutput
  | 0, upstreamCount, _, _, calls =>
    { result := upstream upstreamCount
      calls := calls
      upstreamCalls := upstreamCount + 1 }
  | n + 1, upstreamCount, searchCount, messages, calls =>
    match upstream upstreamCount with
    | .error e =>
      { result := .error ("upstream request failed: " ++ e)
        calls := calls
        upstreamCalls := upstreamCount + 1 }
    | .ok resp =>
      match resp.choices with
      | [] => { result := .ok resp, calls := calls, upstreamCalls := upstreamCount + 1 }
      | choice :: _ =>
        let webSearchToolCalls := extractWebSearchCalls choice.message.toolCalls
        if webSearchToolCalls = [] then
          { result := .ok resp, calls := calls, upstreamCalls := upstreamCount + 1 }
        else
          let messages := messages ++ [assistantToolCallMessage choice]
          let step := processSearchCalls parseQuery searchFn searchCount messages calls
            webSearchToolCalls
          webSearchLoop upstream parseQuery searchFn n (upstreamCount + 1)
            step.1 step.2.1 step.2.2

/-- `HandleWithWebSearch` with its fixed bound `maxIterations = 5`. -/
def HandleWithWebSearch (upstream : Nat → Except String ChatCompletionResponse)
    (parseQuery : String → Option String)
    (searchFn : Nat → String → Except String SearchProviderResult)
    (chatReq : ChatCompletionRequest) : OrchestratorOutput :=
  webSearchLoop upstream parseQuery searchFn 5 0 0 chatReq.messages []

/-! ## MCP session-RPC search client (`MCPProvider`)

`MCPProvider.Search` drives the handshake-plus-invoke protocol.
Transport and JSON decoding are oracles:
  * `handshake k` — outcome of the `k`-th `initialize` round-trip: an
    error, or the session token read (case-insensitively) from the
    response header, `""` when the header is absent (a warning, not a
    failure);
  * `invoke k`    — outcome of the `k`-th `tools/call` round-trip,
    already unwrapped from the optional `data:` SSE line and decoded
    into the JSON-RPC envelope;
  * `parseRes t`  — `parseResults` applied to the first content item's
    text `t` (the double-JSON decode). -/

/-- `mcpError` — a JSON-RPC application error. -/
structure McpError where
  code : Int
  message : String
  deriving DecidableEq, Repr

/-- One entry of the envelope's result `content` list. -/
structure McpContentItem where
  type : String
  text : String
  deriving DecidableEq, Repr

/-- The decoded `result` field of a `tools/call` envelope. -/
structure McpContentResult where
  content : List McpContentItem
  isError : Bool
  deriving DecidableEq, Repr

/-- Decoding the `result` field may itself fail (`json.Unmarshal` of
`resp.Result`). -/
inductive McpResultDecode where
  | ok (c : McpContentResult) : McpResultDecode
  | parseFail (e : String) : McpResultDecode
  deriving DecidableEq, Repr

/-- The JSON-RPC envelope of a `tools/call` response. -/
structure McpResponse where
  error : Option McpError
  result : McpResultDecode
  deriving DecidableEq, Repr

/-- How one attempt of the `Search` loop body ends: with a final
result/error, or with the session cleared and one retry
(`clearSession(); continue`). -/
inductive AttemptStep where
  | final (r : Except String SearchProviderResult) : AttemptStep
  | authRetry : AttemptStep

/-- The body of one iteration of the `for attempt` loop of
`MCPProvider.Search`, after `ensureSession` has succeeded: send the
`tools/call` request and classify the response.  The auth-expiry test
is `resp.Error.Code == -401 || strings.Contains(resp.Error.Message,
"apikey")`, and on a result-level error, `strings.Contains` of
`"apikey"` or `"-401"` in the first content item's text. -/
def mcpAttempt (invoke : Nat → Except String McpResponse)
    (parseRes : String → Except String SearchProviderResult)
    (invokeCount : Nat) : AttemptStep :=
  match invoke invokeCount with
  | .error e => .final (.error ("failed to call search tool: " ++ e))
  | .ok resp =>
    match resp.error with
    | some err =>
      if err.code = -401 ∨ containsSub "apikey" err.message then .authRetry
      else .final (.error ("search tool error: " ++ err.message
        ++ " (code: " ++ toString err.code ++ ")"))
    | none =>
      match resp.result with
      | .parseFail e => .final (.error ("failed to parse content result: " ++ e))
      | .ok contentResult =>
        if contentResult.isError then
          match contentResult.content with
          | [] => .final (.error "MCP error: unknown error")
          | c :: _ =>
            if containsSub "apikey" c.text ∨ containsSub "-401" c.text then .authRetry
            else .final (.error ("MCP error: " ++ c.text))
        else
          match contentResult.content with
          | [] => .final (.error "no content in response")
          | c :: _ => .final (parseRes c.text)

/-- Observable trace of one `MCPProvider.Search` call: how many
`initialize` handshakes were performed, how many `tools/call` invokes
were sent, and how many times `clearSession` ran. -/
structure McpTrace where
  handshakes : Nat
  invokes : Nat
  clears : Nat
  deriving DecidableEq, Repr

/-- Result and trace of one `MCPProvider.Search` call, with the
provider's cached session token as it stands afterwards. -/
structure McpOutcome where
  result : Except String SearchProviderResult
  trace : McpTrace
  finalSession : String
  deriving Repr

/-- The `for attempt := 0; attempt < 2; attempt++` loop of
`MCPProvider.Search`, by recursion on the remaining attempts.
`ensureSession` reuses a non-empty cached token and otherwise performs
one `initialize` handshake (an absent header token, `""`, is cached
as-is); after the loop the hard error `failed after retry: session
error` is returned. -/
def mcpSearchLoop (handshake : Nat → Except String String)
    (invoke : Nat → Except String McpResponse)
    (parseRes : String → Except String SearchProviderResult) :
    Nat → Nat → Nat → Nat → String → McpOutcome
  | 0, hs, iv, cl, session =>
    { result := .error "failed after retry: session error"
      trace := { handshakes := hs, invokes := iv, clears := cl }
      finalSession := session }
  | n + 1, hs, iv, cl, session =>
    let ensured : Except String (String × Nat) :=
      if session ≠ "" then .ok (session, hs)
      else
        match handshake hs with
        | .error e => .error e
        | .ok token => .ok (token, hs + 1)
    match ensured with
    | .error e =>
      { result := .error ("failed to establish MCP session: " ++ e)
        trace := { handshakes := hs + 1, invokes := iv, clears := cl }
        finalSession := session }
    | .ok (session, hs) =>
      match mcpAttempt invoke parseRes iv with
      | .final r =>
        { result := r
          trace := { handshakes := hs, invokes := iv + 1, clears := cl }
          finalSession := session }
      | .authRetry =>
        mcpSearchLoop handshake invoke parseRes n hs (iv + 1) (cl + 1) ""

/-- `MCPProvider.Search`: unavailable without an API key, otherwise at
most two attempts of handshake-plus-invoke. -/
def MCPSearch (name apiKey : String) (handshake : Nat → Except String String)
    (invoke : Nat → Except String McpResponse)
    (parseRes : String → Except String SearchProviderResult)
    (session₀ : String) : McpOutcome :=
  if apiKey = "" then
    { result := .error (name ++ " provider not configured: missing API key")
      trace := { handshakes := 0, invokes := 0, clears := 0 }
      finalSession := session₀ }
  else mcpSearchLoop handshake invoke parseRes 2 0 0 0 session₀

/-! ## Claims about the converters -/

/-- The plain text of a `ChatMessage` content value: the string itself
when the content is a bare string, `""` otherwise. -/
def textOfChatContent : ChatContent → String
  | .str v => v
  | _ => ""

/-- Claim C7: for every request with a non-empty `instructions` string,
if no message of role `system` is present among the assembled history
messages then `ConvertRequest` inserts exactly one system message built
from the instructions at position 0 of the output message list, and if
a system message is already present no additional system message is
inserted. -/
theorem convertRequest_instructions (req : ResponsesRequest)
    (modelMapping : List (String × String)) (history : List ChatMessage)
    (sdr : Bool) (hi : req.instructions ≠ "") :
    ((∀ m ∈ history, m.role ≠ "system") →
      (ConvertRequest req modelMapping history sdr).1.messages
        = instructionsMessage req.instructions
            :: (history ++ req.input.filterMap
                  (fun item => convertInputItemToMessage item sdr)))
    ∧ ((∃ m ∈ history, m.role = "system") →
      (ConvertRequest req modelMapping history sdr).1.messages
        = history ++ req.input.filterMap
            (fun item => convertInputItemToMessage item sdr)) := by
  constructor
  · intro hsys
    have hany : history.any (fun m => m.role = "system") = false := by
      rw [List.any_eq_false]
      intro m hm
      simpa using hsys m hm
    simp [ConvertRequest, hi, hany]
  · intro hsys
    have hany : history.any (fun m => m.role = "system") = true := by
      rw [List.any_eq_true]
      obtain ⟨m, hm, hrole⟩ := hsys
      exact ⟨m, hm, by simpa using hrole⟩
    simp [ConvertRequest, hi, hany]

/-- A concrete user message item, used by witnesses. -/
def sampleUserItem : InputItem where
  type := "message"
  id := ""
  role := "user"
  content := [{ type := "input_text", text := "hi", imageURL := "", data := "" }]
  callID := ""
  name := ""
  arguments := ""
  output := ""
  status := ""

/-- A concrete request with non-empty instructions, used by witnesses. -/
def sampleInstructedReq : ResponsesRequest where
  model := "gpt"
  instructions := "be brief"
  input := [sampleUserItem]
  tools := []
  stream := false
  temperature := none
  maxTokens := 0
  previousResponseID := ""

/-- Witness for C7 at a concrete input: instructions `"be brief"`,
empty history, one user message item. -/
theorem convertRequest_instructions_witness :
    ((∀ m ∈ ([] : List ChatMessage), m.role ≠ "system") →
      (ConvertRequest sampleInstructedReq [] [] true).1.messages
        = instructionsMessage "be brief"
            :: ([] ++ [sampleUserItem].filterMap
                  (fun item => convertInputItemToMessage item true)))
    ∧ ((∃ m ∈ ([] : List ChatMessage), m.role = "system") →
      (ConvertRequest sampleInstructedReq [] [] true).1.messages
        = [] ++ [sampleUserItem].filterMap
            (fun item => convertInputItemToMessage item true)) :=
  convertRequest_instructions sampleInstructedReq [] [] true (by decide)

/-- The tool filter described by the spec: `function` declarations with
a non-empty name pass through, `web_search` is replaced by the injected
function tool, everything else is dropped. -/
def toolFilterSpec (t : Tool) : Option ChatTool :=
  if t.type = "web_search" then some WebSearchFunctionTool
  else if t.type = "function" ∧ t.function.name ≠ "" then
    some { type := t.type, function := t.function }
  else none

/-- The tool loop of `ConvertRequest` computes exactly the spec's
filter. -/
theorem convertTools_eq_filterMap (ts : List Tool) :
    (convertTools ts).1 = ts.filterMap toolFilterSpec := by
  induction ts with
  | nil => rfl
  | cons t ts ih =>
    simp only [convertTools, List.filterMap_cons, toolFilterSpec]
    by_cases h1 : t.type = "web_search"
    · simp [h1, ih]
    · by_cases h2 : t.type = "function" ∧ t.function.name ≠ ""
      · simp [h1, h2, ih]
      · simp [h1, h2, ih]

/-- Claim C8: `ConvertRequest` passes through unchanged exactly the
tool declarations of type `function` with a non-empty name, replaces
each `web_search` declaration with the injected function tool whose
fixed schema has the single required string field `query`, and drops
all other declaration types. -/
theorem convertRequest_tools (req : ResponsesRequest)
    (modelMapping : List (String × String)) (history : List ChatMessage)
    (sdr : Bool) :
    (ConvertRequest req modelMapping history sdr).1.tools
      = req.tools.filterMap toolFilterSpec
    ∧ WebSearchFunctionTool.type = "function"
    ∧ WebSearchFunctionTool.function.name = "web_search"
    ∧ jsonLookup WebSearchFunctionTool.function.parameters "required"
        = some (.arr [.str "query"])
    ∧ (∃ querySchema,
        jsonLookup WebSearchFunctionTool.function.parameters "properties"
          = some (.obj [("query", querySchema)])
        ∧ jsonLookup querySchema "type" = some (.str "string")) := by
  refine ⟨?_, rfl, rfl, rfl, ?_⟩
  · simpa [ConvertRequest] using convertTools_eq_filterMap req.tools
  · exact ⟨.obj [("type", .str "string"), ("description", .str "搜索关键词或问题")],
      rfl, rfl⟩

/-- Claim C9: for a Back-protocol response with at least one choice,
`ConvertResponse` produces one `function_call` item with status
`completed` per tool call of the first choice, all placed before the
single message item; with no tool calls and empty text the output is
only the contentless message item. -/
theorem convertResponse_output (resp : ChatCompletionResponse)
    (requestID : String) (choice : ChatChoice) (rest : List ChatChoice)
    (h : resp.choices = choice :: rest) :
    (ConvertResponse resp requestID).output
      = choice.message.toolCalls.map (responseToolItem requestID)
          ++ [responseMessageItem requestID choice]
    ∧ (∀ tc, (responseToolItem requestID tc).status = "completed"
        ∧ (responseToolItem requestID tc).type = "function_call")
    ∧ (choice.message.toolCalls = []
        ∧ textOfChatContent choice.message.content = "" →
        (ConvertResponse resp requestID).output
            = [responseMessageItem requestID choice]
          ∧ (responseMessageItem requestID choice).content = []) := by
  refine ⟨by simp [ConvertResponse, h], fun tc => ⟨rfl, rfl⟩, ?_⟩
  rintro ⟨htc, htext⟩
  constructor
  · simp [ConvertResponse, h, htc]
  · simp only [responseMessageItem]
    cases hc : choice.message.content with
    | str v =>
      have : v = "" := by simpa [textOfChatContent, hc] using htext
      simp [this]
    | null => simp
    | parts ps => simp

/-- A concrete response whose single choice has one tool call and text
content, used by witnesses. -/
def sampleChoice : ChatChoice where
  index := 0
  message :=
    { role := "assistant"
      content := .str "done"
      name := ""
      toolCalls := [{ id := "call-9", type := "function",
                      function := { name := "lookup", arguments := "\x7b\x7d" } }]
      toolCallID := "" }
  finishReason := "tool_calls"

/-- A concrete response with one choice, used by witnesses. -/
def sampleChatResponse : ChatCompletionResponse where
  id := "cmpl-1"
  object := "chat.completion"
  created := 7
  model := "m"
  choices := [sampleChoice]
  usage := { promptTokens := 1, completionTokens := 2, totalTokens := 3 }

/-- Witness for C9 at a concrete one-choice response. -/
theorem convertResponse_output_witness :
    (ConvertResponse sampleChatResponse "rid").output
      = sampleChoice.message.toolCalls.map (responseToolItem "rid")
          ++ [responseMessageItem "rid" sampleChoice]
    ∧ (∀ tc, (responseToolItem "rid" tc).status = "completed"
        ∧ (responseToolItem "rid" tc).type = "function_call")
    ∧ (sampleChoice.message.toolCalls = []
        ∧ textOfChatContent sampleChoice.message.content = "" →
        (ConvertResponse sampleChatResponse "rid").output
            = [responseMessageItem "rid" sampleChoice]
          ∧ (responseMessageItem "rid" sampleChoice).content = []) :=
  convertResponse_output sampleChatResponse "rid" sampleChoice [] rfl

/-- Claim C10: for a Back-protocol response with an empty choices
list, `ConvertResponse` returns an empty output list — no message item
at all — while the status is still `completed` and the id carries the
`resp-` prefix of the request id. -/
theorem convertResponse_empty_choices (resp : ChatCompletionResponse)
    (requestID : String) (h : resp.choices = []) :
    (ConvertResponse resp requestID).output = []
    ∧ (ConvertResponse resp requestID).status = "completed"
    ∧ (ConvertResponse resp requestID).id = "resp-" ++ requestID := by
  refine ⟨by simp [ConvertResponse, h], rfl, rfl⟩

/-- Witness for C10 at a concrete choice-free response. -/
theorem convertResponse_empty_choices_witness :
    (ConvertResponse
        { id := "cmpl-2", object := "chat.completion", created := 7,
          model := "m", choices := [],
          usage := { promptTokens := 0, completionTokens := 0, totalTokens := 0 } }
        "rid").output = []
    ∧ (ConvertResponse
        { id := "cmpl-2", object := "chat.completion", created := 7,
          model := "m", choices := [],
          usage := { promptTokens := 0, completionTokens := 0, totalTokens := 0 } }
        "rid").status = "completed"
    ∧ (ConvertResponse
        { id := "cmpl-2", object := "chat.completion", created := 7,
          model := "m", choices := [],
          usage := { promptTokens := 0, completionTokens := 0, totalTokens := 0 } }
        "rid").id = "resp-" ++ "rid" :=
  convertResponse_empty_choices _ "rid" rfl

/-! ## Claims about the web-search orchestrator -/

/-- Bound lemma for the orchestrator loop: against an upstream that on
every call answers successfully with at least one `web_search` tool
call on its first choice, the loop starting with `n` remaining
iterations after `c` calls makes exactly `n + 1` further upstream calls
and ends with a successful result (the forced final call). -/
theorem webSearchLoop_always_websearch
    (upstream : Nat → Except String ChatCompletionResponse)
    (parseQuery : String → Option String)
    (searchFn : Nat → String → Except String SearchProviderResult)
    (h : ∀ k, ∃ resp, upstream k = .ok resp
      ∧ ∃ choice rest, resp.choices = choice :: rest
        ∧ extractWebSearchCalls choice.message.toolCalls ≠ []) :
    ∀ n c sc msgs calls,
      (webSearchLoop upstream parseQuery searchFn n c sc msgs calls).upstreamCalls
          = c + n + 1
      ∧ ∃ r, (webSearchLoop upstream parseQuery searchFn n c sc msgs calls).result
          = .ok r := by
  intro n
  induction n with
  | zero =>
    intro c sc msgs calls
    obtain ⟨resp, hup, _⟩ := h c
    exact ⟨rfl, resp, by simp [webSearchLoop, hup]⟩
  | succ n ih =>
    intro c sc msgs calls
    obtain ⟨resp, hup, choice, rest, hch, hws⟩ := h c
    simp only [webSearchLoop, hup, hch]
    rw [if_neg (by simpa using hws)]
    have := ih (c + 1)
      (processSearchCalls parseQuery searchFn sc
        (msgs ++ [assistantToolCallMessage choice])
        calls (extractWebSearchCalls choice.message.toolCalls)).1
      (processSearchCalls parseQuery searchFn sc
        (msgs ++ [assistantToolCallMessage choice])
        calls (extractWebSearchCalls choice.message.toolCalls)).2.1
      (processSearchCalls parseQuery searchFn sc
        (msgs ++ [assistantToolCallMessage choice])
        calls (extractWebSearchCalls choice.message.toolCalls)).2.2
    refine ⟨?_, this.2⟩
    rw [this.1]
    omega

/-- Claim C2: with the fixed round-trip bound 5, against an upstream
that on every call returns at least one `web_search` tool call, the
orchestrator makes exactly 6 upstream calls (5 loop iterations plus 1
forced final call) and returns a non-error result. -/
theorem handleWithWebSearch_six_calls
    (upstream : Nat → Except String ChatCompletionResponse)
    (parseQuery : String → Option String)
    (searchFn : Nat → String → Except String SearchProviderResult)
    (chatReq : ChatCompletionRequest)
    (h : ∀ k, ∃ resp, upstream k = .ok resp
      ∧ ∃ choice rest, resp.choices = choice :: rest
        ∧ extractWebSearchCalls choice.message.toolCalls ≠ []) :
    (HandleWithWebSearch upstream parseQuery searchFn chatReq).upstreamCalls = 6
    ∧ ∃ r, (HandleWithWebSearch upstream parseQuery searchFn chatReq).result
        = .ok r :=
  webSearchLoop_always_websearch upstream parseQuery searchFn h 5 0 0
    chatReq.messages []

/-- A concrete `web_search` tool call with unparsable JSON arguments,
used by witnesses. -/
def sampleWsToolCall : ToolCall where
  id := "call-1"
  type := "function"
  function := { name := "web_search", arguments := "not json" }

/-- A concrete choice whose message carries `sampleWsToolCall`. -/
def sampleWsChoice : ChatChoice where
  index := 0
  message := { role := "assistant", content := .null, name := "",
               toolCalls := [sampleWsToolCall], toolCallID := "" }
  finishReason := "tool_calls"

/-- A concrete upstream response that always requests a web search. -/
def sampleWsResponse : ChatCompletionResponse where
  id := "cmpl-ws"
  object := "chat.completion"
  created := 0
  model := "m"
  choices := [sampleWsChoice]
  usage := { promptTokens := 0, completionTokens := 0, totalTokens := 0 }

/-- A concrete choice with no tool calls at all. -/
def samplePlainChoice : ChatChoice where
  index := 0
  message := { role := "assistant", content := .str "answer", name := "",
               toolCalls := [], toolCallID := "" }
  finishReason := "stop"

/-- A concrete upstream response with no tool calls. -/
def samplePlainResponse : ChatCompletionResponse where
  id := "cmpl-plain"
  object := "chat.completion"
  created := 0
  model := "m"
  choices := [samplePlainChoice]
  usage := { promptTokens := 0, completionTokens := 0, totalTokens := 0 }

/-- An empty chat request, used by witnesses. -/
def sampleChatRequest : ChatCompletionRequest where
  model := "m"
  messages := []
  tools := []
  stream := false
  temperature := none
  maxTokens := 0

/-- Witness for C2: an upstream that always returns
`sampleWsResponse` leads to exactly 6 upstream calls and a successful
result. -/
theorem handleWithWebSearch_six_calls_witness :
    (HandleWithWebSearch (fun _ => .ok sampleWsResponse) (fun _ => none)
      (fun _ _ => .error "no provider") sampleChatRequest).upstreamCalls = 6
    ∧ ∃ r, (HandleWithWebSearch (fun _ => .ok sampleWsResponse) (fun _ => none)
        (fun _ _ => .error "no provider") sampleChatRequest).result = .ok r :=
  handleWithWebSearch_six_calls _ _ _ _
    (fun _ => ⟨sampleWsResponse, rfl, sampleWsChoice, [], rfl, by decide⟩)

/-- Claim C6: an intercepted `web_search` tool call whose argument
string fails to parse gets the sentinel query `"unknown"` and the turn
continues without aborting (here: the model answers without further
tool calls on the next round-trip and that answer is returned); the
recorded status is `failed` exactly when the search execution itself
returns an error, never merely because of the parse failure. -/
theorem webSearch_parse_failure_continues
    (upstream : Nat → Except String ChatCompletionResponse)
    (parseQuery : String → Option String)
    (searchFn : Nat → String → Except String SearchProviderResult)
    (chatReq : ChatCompletionRequest)
    (resp₀ : ChatCompletionResponse) (choice₀ : ChatChoice) (rest₀ : List ChatChoice)
    (tc : ToolCall)
    (resp₁ : ChatCompletionResponse) (choice₁ : ChatChoice) (rest₁ : List ChatChoice)
    (h₀ : upstream 0 = .ok resp₀)
    (hch₀ : resp₀.choices = choice₀ :: rest₀)
    (hws₀ : extractWebSearchCalls choice₀.message.toolCalls = [tc])
    (hparse : parseQuery tc.function.arguments = none)
    (h₁ : upstream 1 = .ok resp₁)
    (hch₁ : resp₁.choices = choice₁ :: rest₁)
    (hws₁ : extractWebSearchCalls choice₁.message.toolCalls = []) :
    (HandleWithWebSearch upstream parseQuery searchFn chatReq).result = .ok resp₁
    ∧ (HandleWithWebSearch upstream parseQuery searchFn chatReq).upstreamCalls = 2
    ∧ (HandleWithWebSearch upstream parseQuery searchFn chatReq).calls
        = [{ id := tc.id, query := "unknown",
             status := searchCallStatus (searchFn 0 "unknown") }] := by
  have key : HandleWithWebSearch upstream parseQuery searchFn chatReq
      = { result := .ok resp₁,
          calls := [{ id := tc.id, query := "unknown",
                      status := searchCallStatus (searchFn 0 "unknown") }],
          upstreamCalls := 2 } := by
    simp only [HandleWithWebSearch, webSearchLoop, h₀, hch₀, hws₀]
    rw [if_neg (by simp)]
    simp only [hws₀, processSearchCalls, hparse]
    cases hres : searchFn 0 "unknown" with
    | error e =>
      simp [webSearchLoop, h₁, hch₁, hws₁, processSearchCalls,
        searchCallStatus, hres]
    | ok r =>
      simp [webSearchLoop, h₁, hch₁, hws₁, processSearchCalls,
        searchCallStatus, hres]
  rw [key]
  exact ⟨rfl, rfl, rfl⟩

/-- Witness for C6: arguments `"not json"` fail to parse, the search
provider errors, and the recorded outcome is the sentinel query with
status `failed` while the turn completes successfully. -/
theorem webSearch_parse_failure_continues_witness :
    (HandleWithWebSearch
        (fun k => if k = 0 then .ok sampleWsResponse else .ok samplePlainResponse)
        (fun _ => none) (fun _ _ => .error "no provider")
        sampleChatRequest).result = .ok samplePlainResponse
    ∧ (HandleWithWebSearch
        (fun k => if k = 0 then .ok sampleWsResponse else .ok samplePlainResponse)
        (fun _ => none) (fun _ _ => .error "no provider")
        sampleChatRequest).upstreamCalls = 2
    ∧ (HandleWithWebSearch
        (fun k => if k = 0 then .ok sampleWsResponse else .ok samplePlainResponse)
        (fun _ => none) (fun _ _ => .error "no provider")
        sampleChatRequest).calls
        = [{ id := sampleWsToolCall.id, query := "unknown",
             status := searchCallStatus
               ((fun (_ : Nat) (_ : String) =>
                 (.error "no provider" : Except String SearchProviderResult)) 0 "unknown") }] :=
  webSearch_parse_failure_continues _ _ _ sampleChatRequest
    sampleWsResponse sampleWsChoice [] sampleWsToolCall
    samplePlainResponse samplePlainChoice []
    rfl rfl (by decide) rfl rfl rfl (by decide)

/-! ## Claims about the MCP session-RPC client -/

/-- The overall result of the retried attempt: its final outcome, or —
when it too is classified as an auth failure — the hard error issued
after the loop. -/
def retryOutcome : AttemptStep → Except String SearchProviderResult
  | .final r => r
  | .authRetry => .error "failed after retry: session error"

/-- How many further `clearSession` calls an attempt classification
causes. -/
def attemptClears : AttemptStep → Nat
  | .final _ => 0
  | .authRetry => 1

/-- Claim C4 (amended): when the first `tools/call` response carries an
application error whose code is exactly `-401` or whose message
contains `"apikey"`, `MCPProvider.Search` clears the cached session
token, performs a fresh `initialize` handshake, retries the invoke
exactly once, and surfaces an error only if the retried attempt also
fails.  (The source does not treat other negative codes this way; see
the counterexample.) -/
theorem mcpSearch_auth_retry (name apiKey : String)
    (handshake : Nat → Except String String)
    (invoke : Nat → Except String McpResponse)
    (parseRes : String → Except String SearchProviderResult)
    (session₀ : String)
    (hkey : apiKey ≠ "")
    (hhs : ∀ k, ∃ t, handshake k = .ok t)
    (r₀ : McpResponse) (e : McpError)
    (h₀ : invoke 0 = .ok r₀)
    (herr : r₀.error = some e)
    (hcode : e.code = -401 ∨ containsSub "apikey" e.message) :
    (MCPSearch name apiKey handshake invoke parseRes session₀).result
        = retryOutcome (mcpAttempt invoke parseRes 1)
    ∧ (MCPSearch name apiKey handshake invoke parseRes session₀).trace.invokes = 2
    ∧ (MCPSearch name apiKey handshake invoke parseRes session₀).trace.clears
        = 1 + attemptClears (mcpAttempt invoke parseRes 1)
    ∧ (MCPSearch name apiKey handshake invoke parseRes session₀).trace.handshakes
        = (if session₀ = "" then 2 else 1) := by
  have hstep₀ : mcpAttempt invoke parseRes 0 = .authRetry := by
    simp [mcpAttempt, h₀, herr, if_pos hcode]
  obtain ⟨t₀, ht₀⟩ := hhs 0
  obtain ⟨t₁, ht₁⟩ := hhs 1
  by_cases hs₀ : session₀ = ""
  · cases hstep₁ : mcpAttempt invoke parseRes 1 with
    | final r =>
      simp [MCPSearch, hkey, mcpSearchLoop, hs₀, ht₀, ht₁, hstep₀, hstep₁,
        retryOutcome, attemptClears]
    | authRetry =>
      simp [MCPSearch, hkey, mcpSearchLoop, hs₀, ht₀, ht₁, hstep₀, hstep₁,
        retryOutcome, attemptClears]
  · cases hstep₁ : mcpAttempt invoke parseRes 1 with
    | final r =>
      simp [MCPSearch, hkey, mcpSearchLoop, hs₀, ht₀, hstep₀, hstep₁,
        retryOutcome, attemptClears]
    | authRetry =>
      simp [MCPSearch, hkey, mcpSearchLoop, hs₀, ht₀, hstep₀, hstep₁,
        retryOutcome, attemptClears]

/-- A concrete `tools/call` invoke oracle: the first invoke fails with
application error `-401`, the retried invoke succeeds. -/
def sampleAuthInvoke : Nat → Except String McpResponse
  | 0 => .ok { error := some { code := -401, message := "auth expired" },
               result := .parseFail "unused" }
  | _ => .ok { error := none,
               result := .ok { content := [{ type := "text", text := "payload" }],
                               isError := false } }

/-- A concrete `parseResults` oracle. -/
def sampleParseRes : String → Except String SearchProviderResult :=
  fun _ => .ok { query := "q", results := [], error := "" }

/-- Witness for C4 at a concrete run: first invoke answers `-401`, the
retry succeeds, so the search succeeds after exactly two invokes and
one session clear. -/
theorem mcpSearch_auth_retry_witness :
    (MCPSearch "mcp" "key" (fun _ => .ok "tok") sampleAuthInvoke sampleParseRes
        "cached").result
      = retryOutcome (mcpAttempt sampleAuthInvoke sampleParseRes 1)
    ∧ (MCPSearch "mcp" "key" (fun _ => .ok "tok") sampleAuthInvoke sampleParseRes
        "cached").trace.invokes = 2
    ∧ (MCPSearch "mcp" "key" (fun _ => .ok "tok") sampleAuthInvoke sampleParseRes
        "cached").trace.clears
      = 1 + attemptClears (mcpAttempt sampleAuthInvoke sampleParseRes 1)
    ∧ (MCPSearch "mcp" "key" (fun _ => .ok "tok") sampleAuthInvoke sampleParseRes
        "cached").trace.handshakes = (if ("cached" : String) = "" then 2 else 1) :=
  mcpSearch_auth_retry "mcp" "key" _ sampleAuthInvoke sampleParseRes "cached"
    (by decide) (fun k => ⟨"tok", rfl⟩)
    { error := some { code := -401, message := "auth expired" },
      result := .parseFail "unused" }
    { code := -401, message := "auth expired" }
    rfl rfl (Or.inl rfl)

/-- Counterexample to C4 as stated: a *negative* application error
code other than `-401` (here `-402`) is not treated as session expiry —
the client performs no `clearSession`, no fresh handshake and no retry,
and surfaces the error after the single invoke, because the source
tests `resp.Error.Code == -401` rather than `< 0`. -/
theorem mcpSearch_negative_code_counterexample :
    MCPSearch "mcp" "key" (fun _ => .ok "tok")
        (fun _ => .ok { error := some { code := -402, message := "quota exceeded" },
                        result := .parseFail "unused" })
        sampleParseRes "cached"
      = { result := .error "search tool error: quota exceeded (code: -402)"
          trace := { handshakes := 0, invokes := 1, clears := 0 }
          finalSession := "cached" } := by
  rfl

/-! ## Lemmas about the stream translator -/

/-- After `break`, further lines are not processed. -/
theorem stepLine_halted (rid : String) (decode : String → Option ChatCompletionChunk)
    (iterOrder : List (Int × OutputItem) → List (Int × OutputItem))
    (st : StreamState) (line : String) (h : st.halted = true) :
    stepLine rid decode iterOrder st line = st := by
  simp [stepLine, h]

/-- After `break`, a whole remaining suffix is not processed. -/
theorem foldl_stepLine_halted (rid : String)
    (decode : String → Option ChatCompletionChunk)
    (iterOrder : List (Int × OutputItem) → List (Int × OutputItem))
    (st : StreamState) (h : st.halted = true) :
    ∀ lines : List String,
      lines.foldl (stepLine rid decode iterOrder) st = st := by
  intro lines
  induction lines with
  | nil => rfl
  | cons l ls ih => rw [List.foldl_cons, stepLine_halted rid decode iterOrder st l h, ih]

/-- The tool-call step never sets the `break` flag. -/
theorem stepToolCall_halted (rid : String) (st : StreamState) (tc : ToolCall) :
    (stepToolCall rid st tc).halted = st.halted := by
  unfold stepToolCall
  dsimp only
  split <;> rfl

/-- Folding the tool-call step over a delta's tool calls never sets the
`break` flag. -/
theorem foldl_stepToolCall_halted (rid : String) :
    ∀ (tcs : List ToolCall) (st : StreamState),
      (tcs.foldl (stepToolCall rid) st).halted = st.halted := by
  intro tcs
  induction tcs with
  | nil => intro st; rfl
  | cons tc tcs ih =>
    intro st
    rw [List.foldl_cons, ih (stepToolCall rid st tc), stepToolCall_halted]

/-- The text-delta branch never sets the `break` flag. -/
theorem stepTextDelta_halted (rid : String) (st : StreamState) (c : String) :
    (stepTextDelta rid st c).halted = st.halted := by
  unfold stepTextDelta
  dsimp only
  split
  · split <;> rfl
  · rfl

/-- The finish-reason log never sets the `break` flag. -/
theorem stepFinishLog_halted (st : StreamState) (r : String) :
    (stepFinishLog st r).halted = st.halted := by
  unfold stepFinishLog
  split <;> rfl

/-- Processing a decoded chunk never sets the `break` flag. -/
theorem stepChunk_halted (rid : String) (st : StreamState)
    (chunk : ChatCompletionChunk) :
    (stepChunk rid st chunk).halted = st.halted := by
  unfold stepChunk
  cases chunk.choices with
  | nil => rfl
  | cons choice rest =>
    rw [stepFinishLog_halted, foldl_stepToolCall_halted, stepTextDelta_halted]

/-- A line that is not the completion sentinel leaves the `break` flag
unchanged. -/
theorem stepLine_not_done_halted (rid : String)
    (decode : String → Option ChatCompletionChunk)
    (iterOrder : List (Int × OutputItem) → List (Int × OutputItem))
    (st : StreamState) (line : String) (h : isDoneLine line = false) :
    (stepLine rid decode iterOrder st line).halted = st.halted := by
  by_cases hh : st.halted
  · rw [stepLine_halted rid decode iterOrder st line hh]
  · have hh' : st.halted = false := by simpa using hh
    unfold stepLine
    rw [hh']
    simp only [Bool.false_eq_true, if_false, ite_false]
    cases hd : dataOf line with
    | none => simp [hh']
    | some data =>
      have hne : data ≠ "[DONE]" := by
        intro he
        rw [he] at hd
        simp [isDoneLine, hd] at h
      simp only [hne, if_false, ite_false]
      cases decode data with
      | none => simp [hh']
      | some chunk => rw [stepChunk_halted, hh']

/-- A run over sentinel-free lines never sets the `break` flag. -/
theorem foldl_no_done_halted (rid : String)
    (decode : String → Option ChatCompletionChunk)
    (iterOrder : List (Int × OutputItem) → List (Int × OutputItem)) :
    ∀ (lines : List String) (st : StreamState),
      (∀ l ∈ lines, isDoneLine l = false) →
      (lines.foldl (stepLine rid decode iterOrder) st).halted = st.halted := by
  intro lines
  induction lines with
  | nil => intro st _; rfl
  | cons l ls ih =>
    intro st h
    rw [List.foldl_cons, ih _ (fun x hx => h x (List.mem_cons_of_mem l hx)),
      stepLine_not_done_halted rid decode iterOrder st l (h l (List.mem_cons_self l ls))]

/-- Processing the completion sentinel from a non-halted state: the
item-done events for every open tool call (in map-iteration order),
then the message done event with the accumulated text, then the
turn-completed event, and the `break` flag. -/
theorem stepLine_done (rid : String) (decode : String → Option ChatCompletionChunk)
    (iterOrder : List (Int × OutputItem) → List (Int × OutputItem))
    (st : StreamState) (line : String) (hh : st.halted = false)
    (h : isDoneLine line = true) :
    stepLine rid decode iterOrder st line
      = { st with
          events := st.events
            ++ (iterOrder st.toolCalls).map (fun kv => .itemDone kv.2)
            ++ [.itemDone (doneMessageItem rid st.outputText),
                .completed ("resp-" ++ rid) "completed"]
          halted := true } := by
  have hd : dataOf line = some "[DONE]" := by
    simpa [isDoneLine] using h
  unfold stepLine
  simp [hh, hd]

/-- No `response.completed` event occurs in an event list. -/
def noCompleted (evs : List FrontEvent) : Prop :=
  ∀ i s, FrontEvent.completed i s ∉ evs

/-- The tool-call step emits no `response.completed` event. -/
theorem stepToolCall_noCompleted (rid : String) (st : StreamState) (tc : ToolCall)
    (h : noCompleted st.events) : noCompleted (stepToolCall rid st tc).events := by
  unfold stepToolCall
  dsimp only
  split
  · exact h
  · intro i s hmem
    rcases List.mem_append.mp hmem with hmem | hmem
    · exact h i s hmem
    · simp at hmem

/-- The tool-call loop emits no `response.completed` event. -/
theorem foldl_stepToolCall_noCompleted (rid : String) :
    ∀ (tcs : List ToolCall) (st : StreamState),
      noCompleted st.events → noCompleted (tcs.foldl (stepToolCall rid) st).events := by
  intro tcs
  induction tcs with
  | nil => intro st h; exact h
  | cons tc tcs ih =>
    intro st h
    exact ih (stepToolCall rid st tc) (stepToolCall_noCompleted rid st tc h)

/-- Appending completion-free events preserves `noCompleted`. -/
theorem noCompleted_append (evs₁ evs₂ : List FrontEvent)
    (h₁ : noCompleted evs₁) (h₂ : noCompleted evs₂) :
    noCompleted (evs₁ ++ evs₂) := by
  intro i s hmem
  rcases List.mem_append.mp hmem with hmem | hmem
  · exact h₁ i s hmem
  · exact h₂ i s hmem

/-- The text-delta branch emits no `response.completed` event. -/
theorem stepTextDelta_noCompleted (rid : String) (st : StreamState) (c : String)
    (h : noCompleted st.events) : noCompleted (stepTextDelta rid st c).events := by
  unfold stepTextDelta
  dsimp only
  split
  · split
    · exact noCompleted_append _ _ (noCompleted_append _ _ h (by intro i s hm; simp at hm))
        (by intro i s hm; simp at hm)
    · exact noCompleted_append _ _ h (by intro i s hm; simp at hm)
  · exact h

/-- The finish-reason log leaves the event list unchanged. -/
theorem stepFinishLog_events (st : StreamState) (r : String) :
    (stepFinishLog st r).events = st.events := by
  unfold stepFinishLog
  split <;> rfl

/-- Chunk processing emits no `response.completed` event. -/
theorem stepChunk_noCompleted (rid : String) (st : StreamState)
    (chunk : ChatCompletionChunk) (h : noCompleted st.events) :
    noCompleted (stepChunk rid st chunk).events := by
  unfold stepChunk
  cases chunk.choices with
  | nil => exact h
  | cons choice rest =>
    rw [stepFinishLog_events]
    exact foldl_stepToolCall_noCompleted rid choice.delta.toolCalls _
      (stepTextDelta_noCompleted rid st choice.delta.content h)

/-- A non-sentinel line emits no `response.completed` event. -/
theorem stepLine_noCompleted (rid : String)
    (decode : String → Option ChatCompletionChunk)
    (iterOrder : List (Int × OutputItem) → List (Int × OutputItem))
    (st : StreamState) (line : String) (hline : isDoneLine line = false)
    (h : noCompleted st.events) :
    noCompleted (stepLine rid decode iterOrder st line).events := by
  by_cases hh : st.halted
  · rw [stepLine_halted rid decode iterOrder st line hh]; exact h
  · have hh' : st.halted = false := by simpa using hh
    unfold stepLine
    rw [hh']
    simp only [Bool.false_eq_true, if_false, ite_false]
    cases hd : dataOf line with
    | none => exact h
    | some data =>
      have hne : data ≠ "[DONE]" := by
        intro he
        rw [he] at hd
        simp [isDoneLine, hd] at hline
      simp only [hne, if_false, ite_false]
      cases decode data with
      | none => exact h
      | some chunk => exact stepChunk_noCompleted rid st chunk h

/-- A run over sentinel-free lines emits no `response.completed`
event. -/
theorem foldl_noCompleted (rid : String)
    (decode : String → Option ChatCompletionChunk)
    (iterOrder : List (Int × OutputItem) → List (Int × OutputItem)) :
    ∀ (lines : List String) (st : StreamState),
      (∀ l ∈ lines, isDoneLine l = false) → noCompleted st.events →
      noCompleted ((lines.foldl (stepLine rid decode iterOrder) st)).events := by
  intro lines
  induction lines with
  | nil => intro st _ h; exact h
  | cons l ls ih =>
    intro st hl h
    exact ih _ (fun x hx => hl x (List.mem_cons_of_mem l hx))
      (stepLine_noCompleted rid decode iterOrder st l
        (hl l (List.mem_cons_self l ls)) h)

/-! ## Claims about the stream translator -/

/-- Claim C3 (amended): when the translator reads a data line equal to
the completion sentinel, it emits one item-done event for every
currently open tool-call item — in the Go map's iteration order, a
permutation of the open items that need not follow discovery order —
then one message item-done event carrying the full accumulated text,
then one turn-completed event, and stops reading regardless of the
remaining input (and of any later read error).  In particular every
tool call's done event precedes the message's done event. -/
theorem streamDone_emission (rid : String)
    (decode : String → Option ChatCompletionChunk)
    (iterOrder : List (Int × OutputItem) → List (Int × OutputItem))
    (l₁ l₂ : List String) (d : String) (readErr : Option String)
    (hOrd : ∀ m, List.Perm (iterOrder m) m)
    (hd : isDoneLine d = true)
    (h₁ : ∀ l ∈ l₁, isDoneLine l = false) :
    (HandleStreamingResponse rid decode iterOrder (l₁ ++ d :: l₂) readErr).events
      = (runLines rid decode iterOrder l₁).events
        ++ (iterOrder (runLines rid decode iterOrder l₁).toolCalls).map
            (fun kv => FrontEvent.itemDone kv.2)
        ++ [FrontEvent.itemDone
              (doneMessageItem rid (runLines rid decode iterOrder l₁).outputText),
            FrontEvent.completed ("resp-" ++ rid) "completed"]
    ∧ List.Perm
        ((iterOrder (runLines rid decode iterOrder l₁).toolCalls).map (fun kv => kv.2))
        ((runLines rid decode iterOrder l₁).toolCalls.map (fun kv => kv.2))
    ∧ HandleStreamingResponse rid decode iterOrder (l₁ ++ d :: l₂) readErr
        = HandleStreamingResponse rid decode iterOrder (l₁ ++ [d]) none := by
  have hhalt : (runLines rid decode iterOrder l₁).halted = false := by
    unfold runLines
    rw [foldl_no_done_halted rid decode iterOrder l₁ (initStreamState rid) h₁]
    rfl
  have hstep := stepLine_done rid decode iterOrder
    (runLines rid decode iterOrder l₁) d hhalt hd
  have hstephalt :
      (stepLine rid decode iterOrder (runLines rid decode iterOrder l₁) d).halted
        = true := by
    rw [hstep]
  have hrun₁ : runLines rid decode iterOrder (l₁ ++ d :: l₂)
      = stepLine rid decode iterOrder (runLines rid decode iterOrder l₁) d := by
    unfold runLines
    rw [List.foldl_append, List.foldl_cons]
    exact foldl_stepLine_halted rid decode iterOrder _ (by
      show (stepLine rid decode iterOrder
        (List.foldl (stepLine rid decode iterOrder) (initStreamState rid) l₁) d).halted = true
      exact hstephalt) l₂
  have hrun₂ : runLines rid decode iterOrder (l₁ ++ [d])
      = stepLine rid decode iterOrder (runLines rid decode iterOrder l₁) d := by
    unfold runLines
    rw [List.foldl_append, List.foldl_cons, List.foldl_nil]
  refine ⟨?_, ?_, ?_⟩
  · simp only [HandleStreamingResponse, hrun₁, hstephalt]
    rw [hstep]
    simp
  · exact (hOrd (runLines rid decode iterOrder l₁).toolCalls).map (fun kv => kv.2)
  · simp only [HandleStreamingResponse, hrun₁, hrun₂, hstephalt]
    simp

/-- Witness for C3 on a concrete stream: one ignored keep-alive line,
then the sentinel, then an unread trailing line. -/
theorem streamDone_emission_witness :
    (HandleStreamingResponse "id" (fun _ => none) (fun m => m)
        (["ping"] ++ "data: [DONE]" :: ["data: rest"]) none).events
      = (runLines "id" (fun _ => none) (fun m => m) ["ping"]).events
        ++ ((fun m => m) (runLines "id" (fun _ => none) (fun m => m) ["ping"]).toolCalls).map
            (fun kv => FrontEvent.itemDone kv.2)
        ++ [FrontEvent.itemDone
              (doneMessageItem "id"
                (runLines "id" (fun _ => none) (fun m => m) ["ping"]).outputText),
            FrontEvent.completed ("resp-" ++ "id") "completed"]
    ∧ List.Perm
        (((fun m => m) (runLines "id" (fun _ => none) (fun m => m) ["ping"]).toolCalls).map
          (fun kv => kv.2))
        ((runLines "id" (fun _ => none) (fun m => m) ["ping"]).toolCalls.map (fun kv => kv.2))
    ∧ HandleStreamingResponse "id" (fun _ => none) (fun m => m)
        (["ping"] ++ "data: [DONE]" :: ["data: rest"]) none
        = HandleStreamingResponse "id" (fun _ => none) (fun m => m)
            (["ping"] ++ ["data: [DONE]"]) none :=
  streamDone_emission "id" (fun _ => none) (fun m => m) ["ping"] ["data: rest"]
    "data: [DONE]" none (fun m => List.Perm.refl m) (by decide) (by decide)

/-- A streaming chunk whose delta carries exactly one tool call. -/
def oneToolCallChunk (id name args : String) : ChatCompletionChunk where
  id := ""
  object := ""
  created := 0
  model := ""
  choices := [{ index := 0,
                delta := { role := "", content := "",
                           toolCalls := [{ id := id, type := "function",
                                           function := { name := name,
                                                         arguments := args } }] },
                finishReason := "" }]

/-- A concrete decode oracle delivering two tool-call deltas with no
provider ids (so the per-stream counter keys both). -/
def orderDecode : String → Option ChatCompletionChunk
  | "A" => some (oneToolCallChunk "" "alpha" "argA")
  | "B" => some (oneToolCallChunk "" "beta" "argB")
  | _ => none

/-- The first discovered tool-call item of the order counterexample. -/
def orderItemFirst : OutputItem where
  type := "function_call"
  id := "fc-id-0"
  role := ""
  content := []
  callID := ""
  name := "alpha"
  arguments := "argA"
  status := "in_progress"

/-- The second discovered tool-call item of the order counterexample. -/
def orderItemSecond : OutputItem where
  type := "function_call"
  id := "fc-id-1"
  role := ""
  content := []
  callID := ""
  name := "beta"
  arguments := "argB"
  status := "in_progress"

/-- Counterexample to C3 as stated: the item-done events at the
sentinel follow the Go map's iteration order, which is unspecified.
Reversal is an admissible iteration order (second conjunct: it
permutes the concrete final map), and under it the stream that
discovers `fc-id-0` before `fc-id-1` (the two `added` events) emits
`fc-id-1`'s done event first — not the order the tool calls were first
discovered. -/
theorem streamDone_order_counterexample :
    (HandleStreamingResponse "id" orderDecode List.reverse
        ["data: A", "data: B", "data: [DONE]"] none).events
      = [FrontEvent.created "resp-id" "in_progress",
         FrontEvent.itemAdded { orderItemFirst with name := "", arguments := "" },
         FrontEvent.itemAdded { orderItemSecond with name := "", arguments := "" },
         FrontEvent.itemDone orderItemSecond,
         FrontEvent.itemDone orderItemFirst,
         FrontEvent.itemDone (doneMessageItem "id" ""),
         FrontEvent.completed "resp-id" "completed"]
    ∧ List.Perm
        (List.reverse ((runLines "id" orderDecode List.reverse
          ["data: A", "data: B"]).toolCalls))
        ((runLines "id" orderDecode List.reverse ["data: A", "data: B"]).toolCalls) := by
  constructor
  · decide
  · decide

/-- Claim C5 (amended): when reading the delta stream fails with a
transport read error (no sentinel was seen), the loop terminates
without emitting a turn-completed event; the error is only logged —
the caller-visible output (events written and the returned
`StreamResult`) is identical to that of an error-free run over the
same lines. -/
theorem streamReadError_no_completion (rid : String)
    (decode : String → Option ChatCompletionChunk)
    (iterOrder : List (Int × OutputItem) → List (Int × OutputItem))
    (lines : List String) (e : String)
    (h : ∀ l ∈ lines, isDoneLine l = false) :
    noCompleted (HandleStreamingResponse rid decode iterOrder lines (some e)).events
    ∧ (HandleStreamingResponse rid decode iterOrder lines (some e)).events
        = (HandleStreamingResponse rid decode iterOrder lines none).events
    ∧ (HandleStreamingResponse rid decode iterOrder lines (some e)).result
        = (HandleStreamingResponse rid decode iterOrder lines none).result := by
  have hinit : noCompleted (initStreamState rid).events := by
    intro i s hm
    simp [initStreamState] at hm
  have hnc : noCompleted (runLines rid decode iterOrder lines).events :=
    foldl_noCompleted rid decode iterOrder lines (initStreamState rid) h hinit
  refine ⟨?_, ?_, ?_⟩
  · cases hh : (runLines rid decode iterOrder lines).halted <;>
      simp only [HandleStreamingResponse, hh] <;> simpa using hnc
  · cases hh : (runLines rid decode iterOrder lines).halted <;>
      simp [HandleStreamingResponse, hh]
  · cases hh : (runLines rid decode iterOrder lines).halted <;>
      simp [HandleStreamingResponse, hh]

/-- Witness for C5 on a concrete errored stream. -/
theorem streamReadError_no_completion_witness :
    noCompleted (HandleStreamingResponse "id" (fun _ => none) (fun m => m)
        ["data: A"] (some "boom")).events
    ∧ (HandleStreamingResponse "id" (fun _ => none) (fun m => m)
        ["data: A"] (some "boom")).events
        = (HandleStreamingResponse "id" (fun _ => none) (fun m => m)
            ["data: A"] none).events
    ∧ (HandleStreamingResponse "id" (fun _ => none) (fun m => m)
        ["data: A"] (some "boom")).result
        = (HandleStreamingResponse "id" (fun _ => none) (fun m => m)
            ["data: A"] none).result :=
  streamReadError_no_completion "id" (fun _ => none) (fun m => m) ["data: A"]
    "boom" (by decide)

/-- Counterexample to C5 as stated: the read error is not reported to
the caller of the translation.  On a concrete errored stream the
caller-visible output — the events written and the returned
`StreamResult`, which carries no error field — is exactly that of the
error-free run; only the log output differs. -/
theorem streamReadError_counterexample :
    (HandleStreamingResponse "id" (fun _ => none) (fun m => m)
        ["data: A"] (some "read failure")).events
      = (HandleStreamingResponse "id" (fun _ => none) (fun m => m)
          ["data: A"] none).events
    ∧ (HandleStreamingResponse "id" (fun _ => none) (fun m => m)
        ["data: A"] (some "read failure")).result
      = (HandleStreamingResponse "id" (fun _ => none) (fun m => m)
          ["data: A"] none).result
    ∧ (HandleStreamingResponse "id" (fun _ => none) (fun m => m)
        ["data: A"] (some "read failure")).logs
      ≠ (HandleStreamingResponse "id" (fun _ => none) (fun m => m)
          ["data: A"] none).logs := by
  refine ⟨by decide, by decide, by decide⟩

/-- A concrete decode oracle delivering one tool call's argument
fragments split over two chunks, both carrying the provider id
`call_a`, as the spec's chunked-JSON example does. -/
def fragmentDecode : String → Option ChatCompletionChunk
  | "F1" => some (oneToolCallChunk "call_a" "get_data" "\x7b\"a\":1")
  | "F2" => some (oneToolCallChunk "call_a" "" "\x7d")
  | _ => none

set_option maxRecDepth 100000 in
/-- Claim C1, evaluated at the failing input: two deltas with the same
stable key (provider id `call_a`) arrive in order with argument
fragments that should concatenate to one JSON document.  Because the
source looks an item up under `hashToolCallID(tc.ID)` but stores new
items under the counter key `currentToolID`
(`toolCalls[currentToolID] = item`), the second delta misses the
lookup and allocates a fresh item: the fragments end up split across
two items and no item ever holds the concatenated arguments. -/
theorem streamFragment_split_bug :
    (runLines "id" fragmentDecode (fun m => m) ["data: F1", "data: F2"]).toolCalls
      = [((0 : Int),
          { type := "function_call", id := "fc-id-0", role := "", content := [],
            callID := "call_a", name := "get_data", arguments := "\x7b\"a\":1",
            status := "in_progress" }),
         ((1 : Int),
          { type := "function_call", id := "fc-id-1", role := "", content := [],
            callID := "call_a", name := "", arguments := "\x7d",
            status := "in_progress" })]
    ∧ ∀ kv ∈ (runLines "id" fragmentDecode (fun m => m)
        ["data: F1", "data: F2"]).toolCalls,
        kv.2.arguments ≠ "\x7b\"a\":1\x7d" := by
  refine ⟨by decide, by decide⟩
